import Mathlib

/-!
Shallow embedding of `src/main.py` (Motive Event Management System, event
manager).  Python dictionaries are modelled as ordered association lists,
Python values by the inductive `PyVal`, and the Supabase store client by an
explicit function argument; every embedded handler additionally returns the
list of store calls it performed, so that "no store call is made" and "the
store was invoked with these arguments" are provable statements.
-/

namespace EventManager

/-- Python values as they occur in requests and store rows: `null` models
Python `None`, and lists model JSON arrays such as `artist_ids`. -/
inductive PyVal where
  | null
  | boolean (b : Bool)
  | int (n : Int)
  | str (s : String)
  | list (xs : List PyVal)
deriving Repr

mutual

def PyVal.decEq : (a b : PyVal) → Decidable (a = b)
  | .null, .null => isTrue rfl
  | .boolean a, .boolean b =>
      if h : a = b then isTrue (h ▸ rfl) else isFalse (by simp [h])
  | .int a, .int b =>
      if h : a = b then isTrue (h ▸ rfl) else isFalse (by simp [h])
  | .str a, .str b =>
      if h : a = b then isTrue (h ▸ rfl) else isFalse (by simp [h])
  | .list xs, .list ys =>
      match PyVal.decEqList xs ys with
      | isTrue h => isTrue (h ▸ rfl)
      | isFalse h => isFalse (fun hh => h (PyVal.list.injEq .. ▸ hh ▸ rfl))
  | .null, .boolean _ => isFalse (by simp)
  | .null, .int _ => isFalse (by simp)
  | .null, .str _ => isFalse (by simp)
  | .null, .list _ => isFalse (by simp)
  | .boolean _, .null => isFalse (by simp)
  | .boolean _, .int _ => isFalse (by simp)
  | .boolean _, .str _ => isFalse (by simp)
  | .boolean _, .list _ => isFalse (by simp)
  | .int _, .null => isFalse (by simp)
  | .int _, .boolean _ => isFalse (by simp)
  | .int _, .str _ => isFalse (by simp)
  | .int _, .list _ => isFalse (by simp)
  | .str _, .null => isFalse (by simp)
  | .str _, .boolean _ => isFalse (by simp)
  | .str _, .int _ => isFalse (by simp)
  | .str _, .list _ => isFalse (by simp)
  | .list _, .null => isFalse (by simp)
  | .list _, .boolean _ => isFalse (by simp)
  | .list _, .int _ => isFalse (by simp)
  | .list _, .str _ => isFalse (by simp)

def PyVal.decEqList : (xs ys : List PyVal) → Decidable (xs = ys)
  | [], [] => isTrue rfl
  | [], _ :: _ => isFalse (by simp)
  | _ :: _, [] => isFalse (by simp)
  | x :: xs, y :: ys =>
      match PyVal.decEq x y, PyVal.decEqList xs ys with
      | isTrue h1, isTrue h2 => isTrue (h1 ▸ h2 ▸ rfl)
      | isFalse h1, _ => isFalse (fun hh => h1 (List.cons.injEq .. ▸ hh).1)
      | _, isFalse h2 => isFalse (fun hh => h2 (List.cons.injEq .. ▸ hh).2)

end

instance : DecidableEq PyVal := PyVal.decEq

/-- Python truthiness for the values above: `None`, `False`, `0`, `""` and
`[]` are falsy, everything else is truthy. -/
def PyVal.truthy : PyVal → Bool
  | .null => false
  | .boolean b => b
  | .int n => n != 0
  | .str s => s != ""
  | .list xs => !xs.isEmpty

/-- A Python dict with string keys, in insertion order (requests, store rows). -/
abbrev Row := List (String × PyVal)

/-- The payload dictionary `{"message": ..., "data": ...}` returned by the get
handlers; `data` is either a single row dict (`obj`, the by-id found case) or a
JSON array (`arr`, covering row lists, city-name lists and the literal `[]`). -/
inductive PData where
  | obj (r : Row)
  | arr (vs : List PyVal)
deriving DecidableEq, Repr

structure Payload where
  message : String
  data : PData
deriving DecidableEq, Repr

/-- Outcome of one store-client call: `resp d` models a normal return whose
`.data` attribute is `d`, and `exc m` models the client raising an exception
whose `str` is `m`. -/
inductive Outcome (α : Type) where
  | resp (data : α)
  | exc (msg : String)
deriving DecidableEq, Repr

/-- Outcome of the tuple-style `insert`/`update` calls, which return a
`(result, error)` pair of 2-tuples that the code destructures into
`result_key`, `result_value`, `error_key` and `error_value` (`error_key` is
never read, so it is omitted); `exc` again models a raised exception. -/
inductive PairOutcome where
  | ok (result_key : String) (result_value : List Row) (error_value : Option String)
  | exc (msg : String)
deriving DecidableEq, Repr

/-- `attributes_schema` from `src/main.py`: the per-entity lists of recognized
attribute names ("Schema for request validation"). -/
def attributes_schema : List (String × List String) :=
  [("venue",
    ["user_id", "venue_name", "email", "street_address", "city", "postcode",
     "bio"]),
   ("artist",
    ["user_id", "artist_name", "email", "street_address", "city", "postcode",
     "genres", "spotify_artist_id", "bio"]),
   ("attendee",
    ["user_id", "first_name", "last_name", "email", "street_address", "city",
     "postcode", "bio"]),
   ("event",
    ["event_id", "venue_id", "event_name", "date_time", "total_tickets",
     "sold_tickets", "artist_ids"]),
   ("ticket", ["ticket_id", "event_id", "attendee_id", "price", "status"])]

/-- `create_event`: inserts `attributes` into the `events` table and
normalizes the `(result, error)` pair.  The store client is the `store`
argument; the second component of the result is the list of insert payloads
actually sent to the store. -/
def create_event (attributes : Row) (store : Row → PairOutcome) :
    (Option PyVal × String) × List Row :=
  let data_to_insert : Row := attributes
  match store data_to_insert with
  | .ok result_key result_value error_value =>
      let elsePath : Option PyVal × String :=
        match error_value with
        | some e =>
            if e = "" then
              (none, "Unexpected response: No data returned after insert.")
            else (none, "An error occurred: " ++ e)
        | none => (none, "Unexpected response: No data returned after insert.")
      let res : Option PyVal × String :=
        match result_key == "data", result_value with
        | true, row0 :: _ =>
            (List.lookup "event_id" row0, "Event creation was successful.")
        | _, _ => elsePath
      (res, [data_to_insert])
  | .exc e => ((none, "An exception occurred: " ++ e), [data_to_insert])

/-- Arguments of the `update`/`delete`/`select` table calls: the table name
(`object_type + "s"`), the data sent (empty for delete), the select string
(empty when unused) and the `eq("event_id", ...)` identifier. -/
structure TableCall where
  table : String
  data : Row
  select : String
  identifier : PyVal
deriving DecidableEq, Repr

/-- The test in the confirmation loop of `update_event`:
`key in updated_attributes and updated_attributes[key] != value`. -/
def update_mismatch (updated_attributes : Row) (kv : String × PyVal) : Bool :=
  match List.lookup kv.1 updated_attributes with
  | some w => w != kv.2
  | none => false

/-- `update_event`: drops `None`-valued attributes, short-circuits when
nothing is left, otherwise updates the row and, on a data-carrying result,
runs the confirmation loop, which returns the failure for the first
originally submitted attribute that mismatches the returned row. -/
def update_event (object_type : String) (identifier : PyVal)
    (attributes : Row) (store : TableCall → PairOutcome) :
    (Bool × String) × List TableCall :=
  let data_to_update : Row := attributes.filter (fun kv => kv.2 != PyVal.null)
  if data_to_update.isEmpty then
    ((false, "No valid attributes provided for update."), [])
  else
    let call : TableCall := ⟨object_type ++ "s", data_to_update, "", identifier⟩
    match store call with
    | .ok result_key result_value error_value =>
        let elsePath : Bool × String :=
          match error_value with
          | some e =>
              if e = "" then
                (false, "Unexpected response: No data returned after update.")
              else (false, "An error occurred: " ++ e)
          | none => (false, "Unexpected response: No data returned after update.")
        let res : Bool × String :=
          match result_key == "data", result_value with
          | true, updated_attributes :: _ =>
              match attributes.find? (update_mismatch updated_attributes) with
              | some kv => (false, "Failed to update " ++ kv.1 ++ " attribute.")
              | none => (true, "Event updated successfully.")
          | _, _ => elsePath
        (res, [call])
    | .exc e => ((false, "An exception occurred: " ++ e), [call])

/-- `delete_event`: deletes by `event_id` and reports success exactly when the
result carries a truthy (non-empty list) `.data`. -/
def delete_event (object_type : String) (identifier : PyVal)
    (store : TableCall → Outcome (List PyVal)) :
    (Bool × String) × List TableCall :=
  let call : TableCall := ⟨object_type ++ "s", [], "", identifier⟩
  match store call with
  | .resp data =>
      (if data.isEmpty then (false, "Event not found or already deleted.")
       else (true, "Event deletion was successful."), [call])
  | .exc e => ((false, "An exception occurred: " ++ e), [call])

/-- The list comprehension in `get_event_info`: the attribute names whose flag
is truthy, in dict order. -/
def attributes_to_fetch (attributes : Row) : List String :=
  (attributes.filter (fun kv => kv.2.truthy)).map (fun kv => kv.1)

/-- `get_event_info`: selects `", ".join(attributes_to_fetch)` from the
`object_type + "s"` table filtered by `event_id`, returning the first row on a
truthy `.data` and a not-found failure on an empty one.  `attributes` is
`request.get("attributes", {})`, so `none` models an absent key. -/
def get_event_info (object_type : String) (event_id : PyVal)
    (attributes : Option Row) (store : TableCall → Outcome (List Row)) :
    (Bool × Payload) × List TableCall :=
  let fetch : List String := attributes_to_fetch (attributes.getD [])
  let call : TableCall :=
    ⟨object_type ++ "s", [], String.intercalate ", " fetch, event_id⟩
  match store call with
  | .resp data =>
      (match data with
       | row0 :: _ => (true, ⟨"Event found", .obj row0⟩)
       | [] => (false, ⟨"Event not found", .arr []⟩), [call])
  | .exc e => ((false, ⟨"An API error occurred: " ++ e, .arr []⟩), [call])

/-- One remote-procedure call: the procedure name, the name of the single
parameter
and the argument passed for it. -/
structure RpcCall where
  fn : String
  param : String
  arg : PyVal
deriving DecidableEq, Repr

/-- The response normalization shared verbatim by the four relational event
get handlers: `hasattr(response, "data")` is modelled by the `Option` layer,
a truthy (non-empty) `data` yields the events, a falsy one the empty-list
success, a missing attribute the unexpected-format failure, and an exception
the API-error failure. -/
def events_rpc_result : Outcome (Option (List PyVal)) → Bool × Payload
  | .resp (some data) =>
      if data.isEmpty then (true, ⟨"No events found", .arr []⟩)
      else (true, ⟨"Events found", .arr data⟩)
  | .resp none => (false, ⟨"Unexpected response format", .arr []⟩)
  | .exc e => (false, ⟨"An API error occurred: " ++ e, .arr []⟩)

/-- `get_events_for_venue`: calls the `get_events_for_venue` procedure with
`venue_user_id` and normalizes the response. -/
def get_events_for_venue (identifier : PyVal)
    (store : RpcCall → Outcome (Option (List PyVal))) :
    (Bool × Payload) × List RpcCall :=
  let call : RpcCall := ⟨"get_events_for_venue", "venue_user_id", identifier⟩
  (events_rpc_result (store call), [call])

/-- `get_events_for_artist`: calls the `get_events_for_artist` procedure with
`artist_id` and normalizes the response. -/
def get_events_for_artist (identifier : PyVal)
    (store : RpcCall → Outcome (Option (List PyVal))) :
    (Bool × Payload) × List RpcCall :=
  let call : RpcCall := ⟨"get_events_for_artist", "artist_id", identifier⟩
  (events_rpc_result (store call), [call])

/-- `get_events_for_attendee`: calls the `get_events_for_attendee` procedure
with `_attendee_id` and normalizes the response. -/
def get_events_for_attendee (identifier : PyVal)
    (store : RpcCall → Outcome (Option (List PyVal))) :
    (Bool × Payload) × List RpcCall :=
  let call : RpcCall := ⟨"get_events_for_attendee", "_attendee_id", identifier⟩
  (events_rpc_result (store call), [call])

/-- `get_events_in_city`: `request.get("identifier", None)` (absent modelled
as `none`, read as Python `None`), a falsy city name is rejected before any
store call, otherwise the `get_events_in_city` procedure is called. -/
def get_events_in_city (identifier : Option PyVal)
    (store : RpcCall → Outcome (Option (List PyVal))) :
    (Bool × Payload) × List RpcCall :=
  let city_name : PyVal := identifier.getD .null
  if !city_name.truthy then
    ((false, ⟨"City name is required", .arr []⟩), [])
  else
    let call : RpcCall := ⟨"get_events_in_city", "city_name", city_name⟩
    (events_rpc_result (store call), [call])

/-- The list comprehension `[city["city"] for city in response.data]`:
`none` models the `KeyError` raised when some row lacks the `"city"` key. -/
def extract_cities : List Row → Option (List PyVal)
  | [] => some []
  | r :: rs =>
      match List.lookup "city" r, extract_cities rs with
      | some v, some vs => some (v :: vs)
      | _, _ => none

/-- `get_cities_by_country`: `request["identifier"]` raises `KeyError` when
the key is absent (`identifier = none`), which the surrounding `try` catches
as `An API error occurred: \x27identifier\x27`; a falsy country name is
rejected before any store call; otherwise `cities` rows are read and the
else-branch conflates falsy and missing `.data` into one `ok=True` message. -/
def get_cities_by_country (identifier : Option PyVal)
    (store : TableCall → Outcome (Option (List Row))) :
    (Bool × Payload) × List TableCall :=
  match identifier with
  | none =>
      ((false, ⟨"An API error occurred: \x27identifier\x27", .arr []⟩), [])
  | some country_name =>
      if !country_name.truthy then
        ((false, ⟨"Country name is required", .arr []⟩), [])
      else
        let call : TableCall := ⟨"cities", [], "*", country_name⟩
        match store call with
        | .resp (some data) =>
            if data.isEmpty then
              ((true,
                ⟨"No cities found or unexpected response format", .arr []⟩),
               [call])
            else
              match extract_cities data with
              | some cities => ((true, ⟨"Cities found", .arr cities⟩), [call])
              | none =>
                  ((false, ⟨"An API error occurred: \x27city\x27", .arr []⟩),
                   [call])
        | .resp none =>
            ((true,
              ⟨"No cities found or unexpected response format", .arr []⟩),
             [call])
        | .exc e =>
            ((false, ⟨"An API error occurred: " ++ e, .arr []⟩), [call])

/-- The characters of the fixed marker the spec says every caught-exception
message carries. -/
def exceptionMarker : List Char := "exception occurred".toList

/-- `containsMarker s` holds when the marker occurs as a substring of `s`. -/
def containsMarker (s : String) : Prop := exceptionMarker <:+: s.toList

instance (s : String) : Decidable (containsMarker s) :=
  List.decidableInfix exceptionMarker s.toList

/-- Follows the wording of the spec for the read-by-id projection (section
4.1): the
truthy-flagged attribute names, except that "an empty or all-false mapping
falls back to selecting all recognized fields for that entity" from the
Schema Registry.  Stated for comparison with `get_event_info`, which is
translated from the source. -/
def spec_fallback_projection (entity : String) (attributes : Row) :
    List String :=
  if attributes_to_fetch attributes = [] then
    (List.lookup entity attributes_schema).getD []
  else attributes_to_fetch attributes

/-- Claim C1: a write request whose attributes contain a key not in the
schema-registry entry of the entity is said to be rejected with a validation
error
naming the key before any store call.  The code performs no such validation:
with the unknown key `not_a_real_key` (absent from the event schema), both
`create_event` and `update_event` send the key straight to the store and
return the success outcome of the store. -/
theorem C1_unknown_key_reaches_store :
    create_event [("not_a_real_key", PyVal.str "x")]
        (fun _ => .ok "data" [[("event_id", PyVal.int 7)]] none)
      = ((some (PyVal.int 7), "Event creation was successful."),
         [[("not_a_real_key", PyVal.str "x")]])
    ∧ (update_event "event" (PyVal.int 1) [("not_a_real_key", PyVal.str "x")]
        (fun _ => .ok "data" [[("not_a_real_key", PyVal.str "x")]] none)).2
      = [⟨"events", [("not_a_real_key", PyVal.str "x")], "", PyVal.int 1⟩]
    ∧ "not_a_real_key" ∉ (List.lookup "event" attributes_schema).getD [] := by
  refine ⟨rfl, rfl, ?_⟩
  decide

/-- Claim C2: a by-id read whose store query matches zero rows yields
`ok=False` with the not-found payload, while each relational read whose store
call returns an empty data list yields `ok=True` with
`{"message": "No events found", "data": []}`. -/
theorem C2_empty_read_asymmetry (object_type : String)
    (event_id venue artist attendee city : PyVal) (attrs : Option Row)
    (tstore : TableCall → Outcome (List Row))
    (rstore : RpcCall → Outcome (Option (List PyVal)))
    (h1 : ∀ c, tstore c = .resp []) (h2 : ∀ c, rstore c = .resp (some []))
    (hcity : city.truthy = true) :
    (get_event_info object_type event_id attrs tstore).1
      = (false, ⟨"Event not found", .arr []⟩)
    ∧ (get_events_for_venue venue rstore).1
      = (true, ⟨"No events found", .arr []⟩)
    ∧ (get_events_for_artist artist rstore).1
      = (true, ⟨"No events found", .arr []⟩)
    ∧ (get_events_for_attendee attendee rstore).1
      = (true, ⟨"No events found", .arr []⟩)
    ∧ (get_events_in_city (some city) rstore).1
      = (true, ⟨"No events found", .arr []⟩) := by
  simp [get_event_info, get_events_for_venue, get_events_for_artist,
    get_events_for_attendee, get_events_in_city, events_rpc_result, h1, h2,
    hcity]

/-- Witness for C2 at concrete inputs. -/
theorem C2_empty_read_asymmetry_witness :
    (get_event_info "event" (PyVal.str "123")
        (some [("event_name", PyVal.boolean true)]) (fun _ => .resp [])).1
      = (false, ⟨"Event not found", .arr []⟩)
    ∧ (get_events_for_venue (PyVal.str "venue123")
        (fun _ => .resp (some []))).1
      = (true, ⟨"No events found", .arr []⟩) := by
  have h := C2_empty_read_asymmetry "event" (PyVal.str "123")
    (PyVal.str "venue123") (PyVal.str "artist123") (PyVal.str "attendee123")
    (PyVal.str "Test City") (some [("event_name", PyVal.boolean true)])
    (fun _ => .resp []) (fun _ => .resp (some []))
    (fun _ => rfl) (fun _ => rfl) (by decide)
  exact ⟨h.1, h.2.1⟩

/-- Claim C4: an update whose attributes are all null short-circuits to
`(False, "No valid attributes provided for update.")` with no store call. -/
theorem C4_all_null_update_short_circuits (object_type : String)
    (identifier : PyVal) (attributes : Row) (store : TableCall → PairOutcome)
    (h : ∀ kv ∈ attributes, kv.2 = PyVal.null) :
    update_event object_type identifier attributes store
      = ((false, "No valid attributes provided for update."), []) := by
  have hfilter : attributes.filter (fun kv => kv.2 != PyVal.null) = [] := by
    rw [List.filter_eq_nil_iff]
    intro kv hkv
    simp [h kv hkv]
  simp [update_event, hfilter]

/-- Witness for C4 at a concrete all-null request. -/
theorem C4_all_null_update_short_circuits_witness :
    update_event "event" (PyVal.str "123")
        [("event_name", PyVal.null), ("venue_id", PyVal.null)]
        (fun _ => .ok "data" [] none)
      = ((false, "No valid attributes provided for update."), []) :=
  C4_all_null_update_short_circuits "event" (PyVal.str "123")
    [("event_name", PyVal.null), ("venue_id", PyVal.null)]
    (fun _ => .ok "data" [] none) (by decide)

/-- Claim C6: `create_event` with a valid attributes dictionary (every key
recognized by the event schema) against a store raising
`Exception("Database error")` returns exactly
`(None, "An exception occurred: Database error")`. -/
theorem C6_create_event_database_error (attributes : Row)
    (store : Row → PairOutcome)
    (_hvalid : ∀ kv ∈ attributes,
      kv.1 ∈ (List.lookup "event" attributes_schema).getD [])
    (h : store attributes = .exc "Database error") :
    (create_event attributes store).1
      = (none, "An exception occurred: Database error") := by
  simp [create_event, h]

/-- Witness for C6 at the concrete valid attributes dictionary from the
example request that the source itself carries in comments. -/
theorem C6_create_event_database_error_witness :
    (create_event
        [("venue_id", PyVal.str "1234345256345635"),
         ("event_name", PyVal.str "Yaml sesh"),
         ("date_time", PyVal.str "24 March 2024"),
         ("total_tickets", PyVal.int 1), ("sold_tickets", PyVal.int 0),
         ("artist_ids", PyVal.list [PyVal.str "105165436154430421986"])]
        (fun _ => .exc "Database error")).1
      = (none, "An exception occurred: Database error") :=
  C6_create_event_database_error _ _ (by decide) rfl

/-- Claim C10: `delete_event` succeeds with
`"Event deletion was successful."` exactly when the delete result of the
store has
a non-empty `data`, and reports
`(False, "Event not found or already deleted.")` when `data` is empty. -/
theorem C10_delete_event_data_driven (object_type : String)
    (identifier : PyVal) (store : TableCall → Outcome (List PyVal))
    (data : List PyVal) (h : ∀ c, store c = .resp data) :
    ((delete_event object_type identifier store).1
        = (true, "Event deletion was successful.") ↔ data ≠ [])
    ∧ (data = [] →
        (delete_event object_type identifier store).1
          = (false, "Event not found or already deleted.")) := by
  constructor
  · constructor
    · intro hres hdata
      simp [delete_event, h, hdata] at hres
    · intro hdata
      simp [delete_event, h, List.isEmpty_iff, hdata]
  · intro hdata
    simp [delete_event, h, hdata]

/-- Witness for C10: one deleted row yields success, zero rows yield the
not-found failure. -/
theorem C10_delete_event_data_driven_witness :
    (delete_event "event" (PyVal.str "123")
        (fun _ => .resp [PyVal.int 1])).1
      = (true, "Event deletion was successful.") ∧
    (delete_event "event" (PyVal.str "nonexistent")
        (fun _ => .resp [])).1
      = (false, "Event not found or already deleted.") := by
  constructor
  · exact (C10_delete_event_data_driven "event" (PyVal.str "123")
      (fun _ => .resp [PyVal.int 1]) [PyVal.int 1] (fun _ => rfl)).1.mpr
      (by decide)
  · exact (C10_delete_event_data_driven "event" (PyVal.str "nonexistent")
      (fun _ => .resp []) [] (fun _ => rfl)).2 rfl

/-- The fixed prefix `"An exception occurred: "` contains the marker
`"exception occurred"` as a substring, whatever follows it. -/
theorem containsMarker_an_exception (m : String) :
    containsMarker ("An exception occurred: " ++ m) := by
  refine ⟨"An ".toList, ": ".toList ++ m.toList, ?_⟩
  have h : "An ".toList ++ exceptionMarker ++ ": ".toList
      = "An exception occurred: ".toList := by decide
  calc "An ".toList ++ exceptionMarker ++ (": ".toList ++ m.toList)
      = ("An ".toList ++ exceptionMarker ++ ": ".toList) ++ m.toList := by
        simp [List.append_assoc]
    _ = "An exception occurred: ".toList ++ m.toList := by rw [h]
    _ = ("An exception occurred: " ++ m).toList := by
        simp [String.toList, String.data_append]

/-- Counterexample to claim C3: when the store raises during
`get_event_info`, the surfaced message is `"An API error occurred: ..."`,
which does not contain the fixed marker `"exception occurred"`. -/
theorem C3_get_handlers_lack_marker :
    (get_event_info "event" (PyVal.str "123")
        (some [("event_name", PyVal.boolean true)])
        (fun _ => .exc "Database error")).1
      = (false, ⟨"An API error occurred: Database error", .arr []⟩)
    ∧ ¬ containsMarker "An API error occurred: Database error" := by
  refine ⟨rfl, ?_⟩
  decide

/-- Claim C3 as amended: every operation catches a store exception and
surfaces it as a failure result rather than propagating it, but the message
marker differs by operation family: `create_event`, `update_event` and
`delete_event` return `"An exception occurred: <e>"` (which contains the
`"exception occurred"` marker), while `get_event_info`, the relational get
handlers and `get_cities_by_country` return `"An API error occurred: <e>"`
instead. -/
theorem C3_exceptions_caught (m object_type : String)
    (identifier event_id venue artist attendee city country : PyVal)
    (attributes : Row) (attrs : Option Row) (pstore : Row → PairOutcome)
    (ustore : TableCall → PairOutcome)
    (dstore : TableCall → Outcome (List PyVal))
    (tstore : TableCall → Outcome (List Row))
    (rstore : RpcCall → Outcome (Option (List PyVal)))
    (cstore : TableCall → Outcome (Option (List Row)))
    (hp : ∀ r, pstore r = .exc m) (hu : ∀ c, ustore c = .exc m)
    (hd : ∀ c, dstore c = .exc m) (ht : ∀ c, tstore c = .exc m)
    (hr : ∀ c, rstore c = .exc m) (hc : ∀ c, cstore c = .exc m)
    (hne : (attributes.filter (fun kv => kv.2 != PyVal.null)).isEmpty = false)
    (hcity : city.truthy = true) (hcountry : country.truthy = true) :
    (create_event attributes pstore).1
      = (none, "An exception occurred: " ++ m)
    ∧ (update_event object_type identifier attributes ustore).1
      = (false, "An exception occurred: " ++ m)
    ∧ (delete_event object_type identifier dstore).1
      = (false, "An exception occurred: " ++ m)
    ∧ (get_event_info object_type event_id attrs tstore).1
      = (false, ⟨"An API error occurred: " ++ m, .arr []⟩)
    ∧ (get_events_for_venue venue rstore).1
      = (false, ⟨"An API error occurred: " ++ m, .arr []⟩)
    ∧ (get_events_for_artist artist rstore).1
      = (false, ⟨"An API error occurred: " ++ m, .arr []⟩)
    ∧ (get_events_for_attendee attendee rstore).1
      = (false, ⟨"An API error occurred: " ++ m, .arr []⟩)
    ∧ (get_events_in_city (some city) rstore).1
      = (false, ⟨"An API error occurred: " ++ m, .arr []⟩)
    ∧ (get_cities_by_country (some country) cstore).1
      = (false, ⟨"An API error occurred: " ++ m, .arr []⟩)
    ∧ containsMarker ("An exception occurred: " ++ m) := by
  refine ⟨?_, ?_, ?_, ?_, ?_, ?_, ?_, ?_, ?_, containsMarker_an_exception m⟩
  · simp [create_event, hp]
  · simp [update_event, hu, hne]
  · simp [delete_event, hd]
  · simp [get_event_info, ht]
  · simp [get_events_for_venue, events_rpc_result, hr]
  · simp [get_events_for_artist, events_rpc_result, hr]
  · simp [get_events_for_attendee, events_rpc_result, hr]
  · simp [get_events_in_city, events_rpc_result, hr, hcity]
  · simp [get_cities_by_country, hc, hcountry]

/-- Witness for the amended C3 at a concrete raising store. -/
theorem C3_exceptions_caught_witness :
    (create_event [("event_name", PyVal.str "Exception Event")]
        (fun _ => .exc "Database error")).1
      = (none, "An exception occurred: Database error")
    ∧ (get_events_for_venue (PyVal.str "venue123")
        (fun _ => .exc "RPC call failed")).1
      = (false, ⟨"An API error occurred: RPC call failed", .arr []⟩) := by
  constructor
  · exact (C3_exceptions_caught "Database error" "event" (PyVal.str "1")
      (PyVal.str "1") (PyVal.str "v") (PyVal.str "a") (PyVal.str "t")
      (PyVal.str "c") (PyVal.str "co")
      [("event_name", PyVal.str "Exception Event")] none
      (fun _ => .exc "Database error") (fun _ => .exc "Database error")
      (fun _ => .exc "Database error") (fun _ => .exc "Database error")
      (fun _ => .exc "Database error") (fun _ => .exc "Database error")
      (fun _ => rfl) (fun _ => rfl) (fun _ => rfl) (fun _ => rfl)
      (fun _ => rfl) (fun _ => rfl) (by decide) (by decide) (by decide)).1
  · exact (C3_exceptions_caught "RPC call failed" "event" (PyVal.str "1")
      (PyVal.str "1") (PyVal.str "venue123") (PyVal.str "a") (PyVal.str "t")
      (PyVal.str "c") (PyVal.str "co")
      [("event_name", PyVal.str "Exception Event")] none
      (fun _ => .exc "RPC call failed") (fun _ => .exc "RPC call failed")
      (fun _ => .exc "RPC call failed") (fun _ => .exc "RPC call failed")
      (fun _ => .exc "RPC call failed") (fun _ => .exc "RPC call failed")
      (fun _ => rfl) (fun _ => rfl) (fun _ => rfl) (fun _ => rfl)
      (fun _ => rfl) (fun _ => rfl) (by decide) (by decide)
      (by decide)).2.2.2.2.1

/-- Counterexample to claim C5: a store result with no `data` attribute makes
`get_cities_by_country` return the `ok=True` conflated message, not
`(False, {"message": "Unexpected response format", "data": []})`. -/
theorem C5_cities_conflates_missing_data :
    (get_cities_by_country (some (PyVal.str "United States"))
        (fun _ => .resp none)).1
      = (true, ⟨"No cities found or unexpected response format", .arr []⟩)
    ∧ (get_cities_by_country (some (PyVal.str "United States"))
        (fun _ => .resp none)).1
      ≠ (false, ⟨"Unexpected response format", .arr []⟩) := by
  decide

/-- Claim C5 as amended: a result object lacking the `data` attribute makes
each relational event get handler return
`(False, {"message": "Unexpected response format", "data": []})`, but
`get_cities_by_country` instead returns
`(True, {"message": "No cities found or unexpected response format",
"data": []})`, conflating the missing attribute with the empty result. -/
theorem C5_missing_data_attribute (venue artist attendee city country : PyVal)
    (rstore : RpcCall → Outcome (Option (List PyVal)))
    (cstore : TableCall → Outcome (Option (List Row)))
    (hr : ∀ c, rstore c = .resp none) (hc : ∀ c, cstore c = .resp none)
    (hcity : city.truthy = true) (hcountry : country.truthy = true) :
    (get_events_for_venue venue rstore).1
      = (false, ⟨"Unexpected response format", .arr []⟩)
    ∧ (get_events_for_artist artist rstore).1
      = (false, ⟨"Unexpected response format", .arr []⟩)
    ∧ (get_events_for_attendee attendee rstore).1
      = (false, ⟨"Unexpected response format", .arr []⟩)
    ∧ (get_events_in_city (some city) rstore).1
      = (false, ⟨"Unexpected response format", .arr []⟩)
    ∧ (get_cities_by_country (some country) cstore).1
      = (true, ⟨"No cities found or unexpected response format", .arr []⟩) := by
  refine ⟨?_, ?_, ?_, ?_, ?_⟩
  · simp [get_events_for_venue, events_rpc_result, hr]
  · simp [get_events_for_artist, events_rpc_result, hr]
  · simp [get_events_for_attendee, events_rpc_result, hr]
  · simp [get_events_in_city, events_rpc_result, hr, hcity]
  · simp [get_cities_by_country, hc, hcountry]

/-- Witness for the amended C5 at concrete inputs. -/
theorem C5_missing_data_attribute_witness :
    (get_events_for_venue (PyVal.str "venue123") (fun _ => .resp none)).1
      = (false, ⟨"Unexpected response format", .arr []⟩)
    ∧ (get_cities_by_country (some (PyVal.str "France"))
        (fun _ => .resp none)).1
      = (true, ⟨"No cities found or unexpected response format", .arr []⟩) := by
  have h := C5_missing_data_attribute (PyVal.str "venue123") (PyVal.str "a")
    (PyVal.str "t") (PyVal.str "Test City") (PyVal.str "France")
    (fun _ => .resp none) (fun _ => .resp none) (fun _ => rfl) (fun _ => rfl)
    (by decide) (by decide)
  exact ⟨h.1, h.2.2.2.2⟩

/-- The confirmation-loop test succeeds exactly when the submitted key is
present in the returned row with a different value. -/
theorem update_mismatch_iff (row : Row) (kv : String × PyVal) :
    update_mismatch row kv = true
      ↔ ∃ w, List.lookup kv.1 row = some w ∧ w ≠ kv.2 := by
  unfold update_mismatch
  cases h : List.lookup kv.1 row <;> simp [h]

/-- Claim C7: when the store update returns an updated row, every submitted
attribute whose key is present in that row must carry the value stored in
the row:
any mismatch makes the whole operation fail with
`(False, "Failed to update <key> attribute.")` for a mismatched key, and the
operation returns `(True, "Event updated successfully.")` when no submitted
key present in the row mismatches. -/
theorem C7_update_confirmation (object_type : String) (identifier : PyVal)
    (attributes : Row) (store : TableCall → PairOutcome) (row : Row)
    (rest : List Row) (err : Option String)
    (hne : (attributes.filter (fun kv => kv.2 != PyVal.null)).isEmpty = false)
    (hstore : ∀ c, store c = .ok "data" (row :: rest) err) :
    ((∀ kv ∈ attributes, ∀ w, List.lookup kv.1 row = some w → w = kv.2) →
      (update_event object_type identifier attributes store).1
        = (true, "Event updated successfully."))
    ∧ ((∃ kv ∈ attributes, ∃ w, List.lookup kv.1 row = some w ∧ w ≠ kv.2) →
      ∃ kv ∈ attributes, (∃ w, List.lookup kv.1 row = some w ∧ w ≠ kv.2) ∧
        (update_event object_type identifier attributes store).1
          = (false, "Failed to update " ++ kv.1 ++ " attribute.")) := by
  constructor
  · intro hall
    have hnone : attributes.find? (update_mismatch row) = none := by
      rw [List.find?_eq_none]
      intro kv hkv habs
      obtain ⟨w, hw, hwne⟩ := (update_mismatch_iff row kv).mp habs
      exact hwne (hall kv hkv w hw)
    simp [update_event, hstore, hne, hnone]
  · rintro ⟨kv0, hkv0mem, hkv0⟩
    have hsome : (attributes.find? (update_mismatch row)).isSome := by
      rw [List.find?_isSome]
      exact ⟨kv0, hkv0mem, (update_mismatch_iff row kv0).mpr hkv0⟩
    obtain ⟨kv1, hfind⟩ := Option.isSome_iff_exists.mp hsome
    refine ⟨kv1, List.mem_of_find?_eq_some hfind,
      (update_mismatch_iff row kv1).mp (List.find?_some hfind), ?_⟩
    simp [update_event, hstore, hne, hfind]

/-- Witness for C7: a mismatched `event_name` fails with its message, and a
matching row succeeds. -/
theorem C7_update_confirmation_witness :
    (∃ kv ∈ [("event_name", PyVal.str "New")],
      (∃ w, List.lookup kv.1 [("event_name", PyVal.str "Old")] = some w
        ∧ w ≠ kv.2) ∧
      (update_event "event" (PyVal.str "1")
          [("event_name", PyVal.str "New")]
          (fun _ => .ok "data" [[("event_name", PyVal.str "Old")]] none)).1
        = (false, "Failed to update " ++ kv.1 ++ " attribute."))
    ∧ (update_event "event" (PyVal.str "1")
        [("event_name", PyVal.str "New")]
        (fun _ => .ok "data" [[("event_name", PyVal.str "New")]] none)).1
      = (true, "Event updated successfully.") := by
  constructor
  · exact (C7_update_confirmation "event" (PyVal.str "1")
      [("event_name", PyVal.str "New")]
      (fun _ => .ok "data" [[("event_name", PyVal.str "Old")]] none)
      [("event_name", PyVal.str "Old")] [] none (by decide)
      (fun _ => rfl)).2
      ⟨("event_name", PyVal.str "New"), by decide, by decide⟩
  · exact (C7_update_confirmation "event" (PyVal.str "1")
      [("event_name", PyVal.str "New")]
      (fun _ => .ok "data" [[("event_name", PyVal.str "New")]] none)
      [("event_name", PyVal.str "New")] [] none (by decide)
      (fun _ => rfl)).1 (by decide)

/-- Counterexample to claim C8: with the all-false mapping
`{"event_name": False}`, `get_event_info` sends the empty selection string to
the store, not the fallback to all recognized event fields that the spec
describes. -/
theorem C8_no_schema_fallback :
    (get_event_info "event" (PyVal.str "123")
        (some [("event_name", PyVal.boolean false)]) (fun _ => .resp [])).2
      = [⟨"events", [], "", PyVal.str "123"⟩]
    ∧ String.intercalate ", "
        (spec_fallback_projection "event" [("event_name", PyVal.boolean false)])
      = "event_id, venue_id, event_name, date_time, total_tickets, " ++
        "sold_tickets, artist_ids"
    ∧ ("" :  String)
      ≠ "event_id, venue_id, event_name, date_time, total_tickets, " ++
        "sold_tickets, artist_ids" := by
  refine ⟨rfl, by decide, by decide⟩

/-- Claim C8 as amended: `get_event_info` always queries the store with the
selection string obtained by joining exactly the truthy-flagged attribute
names with `", "`; when the mapping is empty or has no truthy flag, the
selection string sent is simply empty — there is no fallback to the schema
field list of the schema registry. -/
theorem C8_projection (object_type : String) (event_id : PyVal)
    (attrs : Option Row) (store : TableCall → Outcome (List Row)) :
    (get_event_info object_type event_id attrs store).2
      = [⟨object_type ++ "s", [],
          String.intercalate ", " (attributes_to_fetch (attrs.getD [])),
          event_id⟩]
    ∧ ((∀ kv ∈ attrs.getD [], kv.2.truthy = false) →
        (get_event_info object_type event_id attrs store).2
          = [⟨object_type ++ "s", [], "", event_id⟩]) := by
  have hmain : (get_event_info object_type event_id attrs store).2
      = [⟨object_type ++ "s", [],
          String.intercalate ", " (attributes_to_fetch (attrs.getD [])),
          event_id⟩] := by
    unfold get_event_info
    cases h : store ⟨object_type ++ "s", [],
        String.intercalate ", " (attributes_to_fetch (attrs.getD [])),
        event_id⟩ <;> simp [h]
  refine ⟨hmain, fun hall => ?_⟩
  have hfetch : attributes_to_fetch (attrs.getD []) = [] := by
    unfold attributes_to_fetch
    rw [List.map_eq_nil_iff, List.filter_eq_nil_iff]
    intro kv hkv
    simp [hall kv hkv]
  rw [hmain, hfetch]
  rfl

/-- Witness for the amended C8: an all-false mapping yields the empty
selection string. -/
theorem C8_projection_witness :
    (get_event_info "event" (PyVal.str "123")
        (some [("event_name", PyVal.boolean false)]) (fun _ => .resp [])).2
      = [⟨"events", [], "", PyVal.str "123"⟩] :=
  (C8_projection "event" (PyVal.str "123")
    (some [("event_name", PyVal.boolean false)]) (fun _ => .resp [])).2
    (by decide)

/-- Counterexample to claim C9: a request with no `identifier` key at all
makes `get_cities_by_country` raise a `KeyError` that the handler catches as
an API error, so the result is not the claimed
`(False, {"message": "Country name is required", "data": []})` (though the
store is still never called). -/
theorem C9_absent_identifier_keyerror :
    get_cities_by_country none (fun _ => .resp (some []))
      = ((false,
          ⟨"An API error occurred: \x27identifier\x27", .arr []⟩), [])
    ∧ (get_cities_by_country none (fun _ => .resp (some []))).1
      ≠ (false, ⟨"Country name is required", .arr []⟩) := by
  decide

/-- Claim C9 as amended: a falsy identifier is rejected before any store
call — `get_events_in_city` with an absent or falsy city name returns
`(False, {"message": "City name is required", "data": []})`, and
`get_cities_by_country` with a present-but-falsy country name returns
`(False, {"message": "Country name is required", "data": []})` — while an
absent identifier makes `get_cities_by_country` catch its own `KeyError` and
return `(False, {"message": "An API error occurred: \x27identifier\x27",
"data": []})`; in every case the store is never invoked. -/
theorem C9_missing_identifier (city country : PyVal)
    (rstore : RpcCall → Outcome (Option (List PyVal)))
    (cstore : TableCall → Outcome (Option (List Row)))
    (hcity : city.truthy = false) (hcountry : country.truthy = false) :
    get_events_in_city none rstore
      = ((false, ⟨"City name is required", .arr []⟩), [])
    ∧ get_events_in_city (some city) rstore
      = ((false, ⟨"City name is required", .arr []⟩), [])
    ∧ get_cities_by_country (some country) cstore
      = ((false, ⟨"Country name is required", .arr []⟩), [])
    ∧ get_cities_by_country none cstore
      = ((false,
          ⟨"An API error occurred: \x27identifier\x27", .arr []⟩), []) := by
  refine ⟨?_, ?_, ?_, rfl⟩
  · simp [get_events_in_city, PyVal.truthy]
  · simp [get_events_in_city, hcity]
  · simp [get_cities_by_country, hcountry]

/-- Witness for the amended C9 at concrete falsy identifiers. -/
theorem C9_missing_identifier_witness :
    get_events_in_city (some (PyVal.str "")) (fun _ => .resp (some []))
      = ((false, ⟨"City name is required", .arr []⟩), [])
    ∧ get_cities_by_country (some (PyVal.str ""))
        (fun _ => .resp (some []))
      = ((false, ⟨"Country name is required", .arr []⟩), []) := by
  have h := C9_missing_identifier (PyVal.str "") (PyVal.str "")
    (fun _ => .resp (some [])) (fun _ => .resp (some []))
    (by decide) (by decide)
  exact ⟨h.2.1, h.2.2.1⟩

end EventManager
